import Mathlib

/-!
Verification development for `generate_index.py`: a one-shot generator that
fetches a JSON mapping of HTML-attribute templates, normalizes and sorts them,
and renders a static HTML page.  Python strings are modelled as `String` /
`List Char` (sequences of code points), JSON values as the inductive `Json`,
and the network / filesystem effects of `main` as explicit inputs and an
output trace.
-/

namespace DsAttrs

/-- Python `str.strip()` on the left: drop leading whitespace. -/
def ltrimL (l : List Char) : List Char := l.dropWhile Char.isWhitespace

/-- Python `str.strip()`: drop leading and trailing whitespace code points. -/
def pyStrip (l : List Char) : List Char := (ltrimL (ltrimL l).reverse).reverse

/-- Python `str.lower()` (restricted to the ASCII range used by this data). -/
def pyLower (l : List Char) : List Char := l.map Char.toLower

/-- String wrapper for `pyStrip` (Python `.strip()`). -/
def strip (s : String) : String := ⟨pyStrip s.data⟩

/-- String wrapper for `pyLower` (Python `.lower()`). -/
def lower (s : String) : String := ⟨pyLower s.data⟩

/-- Per-character table of Python `html.escape(s, quote=True)`. -/
def escapeChar (c : Char) : List Char :=
  if c = '\x26' then "&amp;".data
  else if c = '\x3c' then "&lt;".data
  else if c = '\x3e' then "&gt;".data
  else if c = '\x22' then "&quot;".data
  else if c = '\x27' then "&#x27;".data
  else [c]

/-- Python `html.escape(s, quote=True)` (`html_escape` in the source). -/
def html_escape (s : String) : String := ⟨(s.data.map escapeChar).flatten⟩

/-- First character class of the `name` group of `DATA_BODY_RE`:
`[A-Za-z*]`. -/
def isNameStart (c : Char) : Bool := c.isAlpha || c = '*'

/-- Repeated character class of the `name` group of `DATA_BODY_RE`:
`[A-Za-z0-9\-*]`. -/
def isNameChar (c : Char) : Bool := c.isAlpha || c.isDigit || c = '-' || c = '*'

/-- Match of the anchored regex
`DATA_BODY_RE = ^data\-(?P<name>[A-Za-z*][A-Za-z0-9\-*]*)(?P<rest>.*)$`:
on success returns the (greedy) `name` and `rest` groups. -/
def dataBodyMatch (s : String) : Option (String × String) :=
  match s.data with
  | 'd' :: 'a' :: 't' :: 'a' :: '-' :: c :: cs =>
      if isNameStart c then
        some (⟨c :: cs.takeWhile isNameChar⟩, ⟨cs.dropWhile isNameChar⟩)
      else none
  | _ => none

/-- Attempted match of `PLACEHOLDER_RE = \$\x7b\d+:(.+?)\x7d` at the head of
the text: on success returns the lazy group `label` and the text after the
match.  The lazy `(.+?)` takes the shortest non-empty run (no newline, since
`.` does not match one) closed by the first following brace. -/
def phMatchAt : List Char → Option (List Char × List Char)
  | '$' :: '\x7b' :: t =>
      let ds := t.takeWhile Char.isDigit
      if ds.isEmpty then none
      else
        match t.dropWhile Char.isDigit with
        | ':' :: c :: cs =>
            let lab := c :: cs.takeWhile (fun x => x ≠ '\x7d')
            if lab.any (fun x => x = '\n') then none
            else
              match cs.dropWhile (fun x => x ≠ '\x7d') with
              | '\x7d' :: rest => some (lab, rest)
              | _ => none
        | _ => none
  | _ => none

/-- Leftmost match of `PLACEHOLDER_RE`: returns the text before the match,
the `label` group, and the text after the match. -/
def findPH : List Char → Option (List Char × List Char × List Char)
  | [] => none
  | c :: cs =>
      match phMatchAt (c :: cs) with
      | some (lab, rest) => some ([], lab, rest)
      | none =>
          match findPH cs with
          | some (p, lab, rest) => some (c :: p, lab, rest)
          | none => none

/-- Python `PLACEHOLDER_RE.sub(lambda m: m.group(1), base)`: replace each
match by its `label` group, scanning left to right.  The fuel argument is
the length of the text, which bounds the number of matches. -/
def phSubGo : Nat → List Char → List Char
  | 0, l => l
  | n + 1, l =>
      match findPH l with
      | none => l
      | some (p, lab, rest) => p ++ lab ++ phSubGo n rest

/-- `PLACEHOLDER_RE.sub(lambda m: m.group(1), s)` as a `String` function. -/
def phSub (s : String) : String := ⟨phSubGo s.data.length s.data⟩

/-- `_sort_key_body` from the source: take `name + rest` when `DATA_BODY_RE`
matches (else the text verbatim), substitute placeholder labels, strip,
lower-case. -/
def sort_key_body (text : String) : String :=
  let base : String :=
    match dataBodyMatch text with
    | some (name, rest) => name ++ rest
    | none => text
  lower (strip (phSub base))

/-- JSON values, as produced by `json.loads`. -/
inductive Json where
  | null : Json
  | bool (b : Bool) : Json
  | num (n : Int) : Json
  | str (s : String) : Json
  | arr (l : List Json) : Json
  | obj (l : List (String × Json)) : Json

/-- Python `type(value).__name__` for the modelled JSON values. -/
def typeName : Json → String
  | .null => "NoneType"
  | .bool _ => "bool"
  | .num _ => "int"
  | .str _ => "str"
  | .arr _ => "list"
  | .obj _ => "dict"

/-- Python `dict.get(k)` on a JSON object (keys are unique in a parsed JSON
object); a missing key yields `None`, i.e. `Json.null`. -/
def jget (l : List (String × Json)) (k : String) : Json :=
  match l.lookup k with
  | some v => v
  | none => .null

/-- The immutable `Row` dataclass of the source. -/
structure Row where
  body : String
  description : String
  href : Option String
  deriving DecidableEq, Repr

/-- The fixed `PRO_FEATURES` denylist of premium attribute-name strings. -/
def PRO_FEATURES : List String :=
  [ "data-custom-validity"
  , "data-on-raf"
  , "data-on-resize"
  , "data-persist"
  , "data-query-string"
  , "data-replace-url"
  , "data-scroll-into-view"
  , "data-view-transition" ]

/-- Python `b.startswith(PRO_FEATURES)`: true when some denylisted string
is a prefix of `b`. -/
def startsWithAnyPro (b : List Char) : Bool :=
  PRO_FEATURES.any (fun p => p.data.isPrefixOf b)

/-- Candidate URL extracted from one element of `references`, following the
loop body of `_first_ref_url`: a `dict` whose `url` value is a string that,
stripped, lower-cases to something beginning `http://` or `https://`. -/
def refCandidate (r : Json) : Option String :=
  match r with
  | .obj o =>
      match jget o "url" with
      | .str u =>
          let u2 := pyStrip u.data
          if ("http://".data.isPrefixOf (pyLower u2)
                || "https://".data.isPrefixOf (pyLower u2))
              && !u2.isEmpty
          then some ⟨u2⟩ else none
      | _ => none
  | _ => none

/-- Loop of `_first_ref_url`: first candidate in order, if any. -/
def firstRefGo : List Json → Option String
  | [] => none
  | r :: rs =>
      match refCandidate r with
      | some u => some u
      | none => firstRefGo rs

/-- `_first_ref_url` from the source: `None` unless the argument is a list,
else the first qualifying URL found scanning in order. -/
def first_ref_url (references : Json) : Option String :=
  match references with
  | .arr refs => firstRefGo refs
  | _ => none

/-- Outcome of one iteration of the `to_rows` loop for a single key/value
entry of the top-level mapping. -/
inductive EntryOutcome where
  | warnSkip (msg : String) : EntryOutcome
  | proSkip : EntryOutcome
  | keep (r : Row) : EntryOutcome
  deriving DecidableEq, Repr

/-- The body of the `to_rows` loop: shape validation with warnings, silent
denylist filtering, and `Row` construction. -/
def classifyEntry (key : String) (value : Json) : EntryOutcome :=
  match value with
  | .obj o =>
      let body := jget o "body"
      let desc := jget o "description"
      let refs := jget o "references"
      match body with
      | .str bs =>
          if (pyStrip bs.data).isEmpty then
            .warnSkip ("Skipping \x27" ++ key ++ "\x27: missing or invalid \x27body\x27")
          else
            match desc with
            | .str ds =>
                if (pyStrip ds.data).isEmpty then
                  .warnSkip ("Skipping \x27" ++ key ++ "\x27: missing or invalid \x27description\x27")
                else
                  let b := pyStrip bs.data
                  if startsWithAnyPro b then .proSkip
                  else .keep ⟨⟨b⟩, ⟨pyStrip ds.data⟩, first_ref_url refs⟩
            | _ =>
                .warnSkip ("Skipping \x27" ++ key ++ "\x27: missing or invalid \x27description\x27")
      | _ =>
          .warnSkip ("Skipping \x27" ++ key ++ "\x27: missing or invalid \x27body\x27")
  | _ =>
      .warnSkip ("Skipping \x27" ++ key ++ "\x27: expected object, got " ++ typeName value)

/-- The rows collected by the `to_rows` loop, before the final sort. -/
def rawRows (data : List (String × Json)) : List Row :=
  data.filterMap (fun kv =>
    match classifyEntry kv.1 kv.2 with
    | .keep r => some r
    | _ => none)

/-- The `[warn]` messages emitted by the `to_rows` loop, in order. -/
def rowWarnings (data : List (String × Json)) : List String :=
  data.filterMap (fun kv =>
    match classifyEntry kv.1 kv.2 with
    | .warnSkip m => some m
    | _ => none)

/-- The key comparison used by `rows.sort(key=lambda r: _sort_key_body(r.body))`:
Python compares strings lexicographically by code points, i.e. as their
character sequences. -/
def rowLe (r s : Row) : Prop :=
  (sort_key_body r.body).data ≤ (sort_key_body s.body).data

instance : DecidableRel rowLe := fun r s =>
  inferInstanceAs (Decidable ((sort_key_body r.body).data ≤ (sort_key_body s.body).data))

/-- `to_rows` from the source: validate and collect rows, then sort them
stably by derived key.  Python `list.sort` is a stable sort; a stable sort
by a total preorder has a unique result, here given by insertion sort. -/
def to_rows (data : List (String × Json)) : List Row :=
  (rawRows data).insertionSort rowLe

/-- Character table of `_escape_and_style`: a literal `=` becomes a fixed
de-emphasis span, every other character is HTML-escaped. -/
def escStyleChar (c : Char) : String :=
  if c = '=' then "<span class=\"text-gray-600\">=</span>" else html_escape ⟨[c]⟩

/-- `_escape_and_style` from the source, on a text segment: the
concatenation of the per-character renderings. -/
def escape_and_style : List Char → String
  | [] => ""
  | c :: cs => escStyleChar c ++ escape_and_style cs

/-- Loop of `_render_placeholders`: segments between `PLACEHOLDER_RE` matches
go through `_escape_and_style`, each match label is escaped inside an italic
span.  Fuel is the text length, bounding the number of matches. -/
def renderPHGo : Nat → List Char → String
  | 0, l => escape_and_style l
  | n + 1, l =>
      match findPH l with
      | none => escape_and_style l
      | some (p, lab, rest) =>
          escape_and_style p ++ "<span class=\"italic\">" ++ html_escape ⟨lab⟩
            ++ "</span>" ++ renderPHGo n rest

/-- `_render_placeholders` from the source. -/
def render_placeholders (s : String) : String := renderPHGo s.data.length s.data

/-- `format_body_html` from the source: when `DATA_BODY_RE` matches, the
`name` group is escaped inside a `font-medium` span and the `rest` group is
rendered with placeholder styling; otherwise the whole body is rendered with
placeholder styling. -/
def format_body_html (body : String) : String :=
  match dataBodyMatch body with
  | none => render_placeholders body
  | some (name, rest) =>
      "<span class=\"font-medium\">" ++ html_escape name ++ "</span>"
        ++ render_placeholders rest

/-- Opening chunk of the anchor emitted by `anchor_wrap`, up to the escaped
href value. -/
def aOpen : String :=
  "<a class=\"link no-underline opacity-80 hover:opacity-100 hover:underline\" target=\"_blank\" rel=\"noopener noreferrer\" href=\""

/-- `anchor_wrap` from the source: wrap the fragment in a link when an href
is present and truthy (non-empty). -/
def anchor_wrap (inner_html : String) (href : Option String) : String :=
  match href with
  | some h =>
      if h = "" then inner_html
      else aOpen ++ html_escape h ++ "\">" ++ inner_html ++ "</a>"
  | none => inner_html

/-- UTC timestamp at the precision used by `strftime("%Y-%m-%d %H:%M UTC")`. -/
structure Datetime where
  year : Nat
  month : Nat
  day : Nat
  hour : Nat
  minute : Nat
  deriving DecidableEq, Repr

/-- Zero-pad to two digits, as `%m`, `%d`, `%H`, `%M` do. -/
def pad2 (n : Nat) : String := if n < 10 then "0" ++ toString n else toString n

/-- Zero-pad to four digits, as `%Y` does. -/
def pad4 (n : Nat) : String :=
  if n < 10 then "000" ++ toString n
  else if n < 100 then "00" ++ toString n
  else if n < 1000 then "0" ++ toString n
  else toString n

/-- `generated_at.strftime("%Y-%m-%d %H:%M UTC")`. -/
def genStr (dt : Datetime) : String :=
  pad4 dt.year ++ "-" ++ pad2 dt.month ++ "-" ++ pad2 dt.day ++ " "
    ++ pad2 dt.hour ++ ":" ++ pad2 dt.minute ++ " UTC"

/-- The fixed stylesheet URL bound to `css_href` in `render_html`. -/
def cssHref : String :=
  "https://cdn.jsdelivr.net/npm/daisyui@4.12.10/dist/full.min.css"

/-- First chunk of the per-row template, before the attribute cell. -/
def rowTr1 : String :=
  "\n            <tr class=\"group transition-colors\">\n              <td class=\"align-top whitespace-pre-wrap py-1 px-2 group-hover:bg-gray-50\">"

/-- Middle chunk of the per-row template, between the two cells. -/
def rowTr2 : String :=
  "</td>\n              <td class=\"align-top py-1 px-2 group-hover:bg-gray-50\">"

/-- Final chunk of the per-row template, after the description cell. -/
def rowTr3 : String := "</td>\n            </tr>\n            "

/-- Document scaffold before the stylesheet URL. -/
def htmlDoc1 : String :=
  "\n<!DOCTYPE html>\n<html lang=\"en\" data-theme=\"light\">\n  <head>\n    <meta charset=\"utf-8\" />\n    <meta name=\"viewport\" content=\"width=device-width, initial-scale=1\" />\n    <title>Datastar RC6 Data Attributes</title>\n    <script src=\"https://cdn.tailwindcss.com\"></script>\n    <link href=\""

/-- Document scaffold between the stylesheet URL and the row markup. -/
def htmlDoc2 : String :=
  "\" rel=\"stylesheet\" />\n    <style>\n      tbody tr:hover td \x7b background-color: rgba(0,0,0,0.04); transition: background-color .15s ease; \x7d\n    </style>\n  </head>\n  <body>\n    <div class=\"container mx-auto px-4 py-6\">\n \n      <div class=\"overflow-x-auto\">\n        <table class=\"table table-zebra text-lg\">\n          <tbody>\n"

/-- Document scaffold between the row markup and the escaped timestamp. -/
def htmlDoc3 : String :=
  "\n          </tbody>\n        </table>\n      </div>\n\n      <footer class=\"mt-8 text-sm text-gray-200\">Generated on "

/-- Document scaffold after the escaped timestamp (footer links, icons). -/
def htmlDoc4 : String :=
  "</footer>\n    </div>\n\n    <div class=\"fixed right-4 bottom-4 flex items-center gap-3\">\n      <a href=\"https://github.com/winkler1/ds-attrs\" class=\"opacity-60 hover:opacity-100 transition-opacity\" aria-label=\"View source on GitHub\" target=\"_blank\" rel=\"noopener noreferrer\" title=\"View on GitHub\">\n        <svg xmlns=\"http://www.w3.org/2000/svg\" width=\"26\" height=\"26\" viewBox=\"0 0 16 16\" fill=\"currentColor\" class=\"text-gray-500 hover:text-black\" aria-hidden=\"true\">\n          <path d=\"M8 0C3.58 0 0 3.58 0 8c0 3.54 2.29 6.53 5.47 7.59 .4 .07 .55 -.17 .55 -.38 0 -.19 -.01 -.82 -.01 -1.49 -2.01 .37 -2.53 -.49 -2.69 -.94 -.09 -.23 -.48 -.94 -.82 -1.13 -.28 -.15 -.68 -.52 -.01 -.53 .63 -.01 1.08 .58 1.23 .82 .72 1.21 1.87 .87 2.33 .66 .07 -.52 .28 -.87 .51 -1.07 -1.78 -.2 -3.64 -.89 -3.64 -3.95 0 -.87 .31 -1.59 .82 -2.15 -.08 -.2 -.36 -1.02 .08 -2.12 0 0 .67 -.21 2.2 .82 .64 -.18 1.32 -.27 2 -.27 .68 0 1.36 .09 2 .27 1.53 -1.04 2.2 -.82 2.2 -.82 .44 1.1 .16 1.92 .08 2.12 .51 .56 .82 1.27 .82 2.15 0 3.07 -1.87 3.75 -3.65 3.95 .29 .25 .54 .73 .54 1.48 0 1.07 -.01 1.93 -.01 2.2 0 .21 .15 .46 .55 .38 C13.71 14.53 16 11.53 16 8 16 3.58 12.42 0 8 0z\"/>\n        </svg>\n      </a>\n      <a href=\"https://data-star.dev/\" class=\"opacity-60 hover:opacity-100 transition-opacity text-gray-500 hover:text-black\" aria-label=\"Datastar website\" target=\"_blank\" rel=\"noopener noreferrer\" title=\"not a cult.\">\n        <span class=\"text-2xl\" style=\"filter: grayscale(100%);\">🚀</span>\n      </a>\n    </div>\n  </body>\n</html>\n"

/-- One entry of `body_rows` in `render_html`: the row template instantiated
with the two (possibly link-wrapped) cell fragments. -/
def renderRow (r : Row) : String :=
  let body_inner := format_body_html r.body
  let body_td := anchor_wrap body_inner r.href
  let desc_td := anchor_wrap (html_escape r.description) r.href
  rowTr1 ++ body_td ++ rowTr2 ++ desc_td ++ rowTr3

/-- Python `sep.join(parts)`. -/
def joinSep (sep : String) : List String → String
  | [] => ""
  | [a] => a
  | a :: b :: rest => a ++ sep ++ joinSep sep (b :: rest)

/-- `render_html` from the source: pure function from the ordered row
sequence and the generation timestamp to the full HTML document. -/
def render_html (rows : List Row) (generated_at : Datetime) : String :=
  let gen_str := genStr generated_at
  let rows_html := joinSep "\n" (rows.map renderRow)
  htmlDoc1 ++ cssHref ++ htmlDoc2 ++ rows_html ++ htmlDoc3
    ++ html_escape gen_str ++ htmlDoc4

/-- The fixed output filename (`OUTPUT_FILENAME`); the working directory of
`Path.cwd() / OUTPUT_FILENAME` is abstracted away. -/
def OUTPUT_FILENAME : String := "index.html"

/-- Observable outcome of one run of `main`: the exit code, the lines printed
to standard output and standard error (in order), and the file written, if
any, as a name/content pair. -/
structure MainTrace where
  exitCode : Nat
  stdoutLines : List String
  stderrLines : List String
  written : Option (String × String)
  deriving DecidableEq, Repr

/-- `main` from the source, over an explicit environment.  The outcome of
`fetch_json` (network plus JSON parse plus top-level shape check) enters as
`fetch`: `Except.error msg` models the `RuntimeError` and `ValueError`
messages it raises (for malformed top-level JSON, `msg` is
`Malformed JSON: ...`).  `writeErr` models the `OSError` text of
`path.write_text`, `none` meaning the write succeeds.  Both exception
paths land in the `except` clause of `main`, which prints one
`Error: ...` line and returns `1`. -/
def mainModel (fetch : Except String (List (String × Json))) (now : Datetime)
    (writeErr : Option String) : MainTrace :=
  match fetch with
  | .error msg => ⟨1, [], ["Error: " ++ msg], none⟩
  | .ok data =>
      let rows := to_rows data
      let warns := (rowWarnings data).map (fun m => "[warn] " ++ m)
      let html := render_html rows now
      match writeErr with
      | some e =>
          ⟨1, [],
            warns ++ ["Error: Failed to write output file \x27" ++ OUTPUT_FILENAME
              ++ "\x27: " ++ e],
            none⟩
      | none =>
          ⟨0, ["Wrote " ++ toString rows.length ++ " rows to " ++ OUTPUT_FILENAME],
            warns, some (OUTPUT_FILENAME, html)⟩

/-- The program-fixed markup chunks that `render_html` and its helpers emit
around escaped user content: every literal string of the Renderer, none of
which carries data from the fetched JSON. -/
def safeChunks : List String :=
  [ rowTr1, rowTr2, rowTr3, aOpen, "\">", "</a>"
  , "<span class=\"font-medium\">", "<span class=\"italic\">", "</span>"
  , "<span class=\"text-gray-600\">=</span>", "\n"
  , htmlDoc1, cssHref, htmlDoc2, htmlDoc3, htmlDoc4 ]

/-- Strings that cannot smuggle unescaped user content into the document:
concatenations of program-fixed markup chunks and `html.escape` outputs. -/
inductive SafeHtml : String → Prop
  | empty : SafeHtml ""
  | esc (s : String) : SafeHtml (html_escape s)
  | chunk (s : String) : s ∈ safeChunks → SafeHtml s
  | append {a b : String} : SafeHtml a → SafeHtml b → SafeHtml (a ++ b)

/-- Spec-side reading of reference extraction, from the spec words: a
qualifying element is a mapping containing a string `url` field whose
trimmed value case-insensitively starts with `http://` or `https://`, and
that trimmed value is taken. -/
def specRefUrl (r : Json) : Option String :=
  match r with
  | .obj o =>
      match jget o "url" with
      | .str u =>
          if "http://".data.isPrefixOf (pyLower (pyStrip u.data))
              || "https://".data.isPrefixOf (pyLower (pyStrip u.data))
          then some ⟨pyStrip u.data⟩ else none
      | _ => none
  | _ => none

/-- Number of entries the `to_rows` loop keeps as rows. -/
def wellFormedCount (data : List (String × Json)) : Nat :=
  data.countP (fun kv =>
    match classifyEntry kv.1 kv.2 with
    | .keep _ => true
    | _ => false)

/-- Number of entries the `to_rows` loop skips with a warning (invalid
shape: non-mapping value, or missing/non-string/blank body or description). -/
def invalidCount (data : List (String × Json)) : Nat :=
  data.countP (fun kv =>
    match classifyEntry kv.1 kv.2 with
    | .warnSkip _ => true
    | _ => false)

/-- Number of entries the `to_rows` loop skips silently because the trimmed
body starts with a denylisted premium feature. -/
def proCount (data : List (String × Json)) : Nat :=
  data.countP (fun kv =>
    match classifyEntry kv.1 kv.2 with
    | .proSkip => true
    | _ => false)

instance : IsTotal Row rowLe :=
  ⟨fun a b => le_total (sort_key_body a.body).data (sort_key_body b.body).data⟩

instance : IsTrans Row rowLe :=
  ⟨fun _ _ _ hab hbc => le_trans hab hbc⟩

/-- Substring test on character lists: does the second list contain the
first as a contiguous run?  Used to state what a rendered fragment does or
does not contain. -/
def isInfixL (needle : List Char) : List Char → Bool
  | [] => needle.isEmpty
  | c :: t => needle.isPrefixOf (c :: t) || isInfixL needle t

/-! Helper lemmas about whitespace stripping. -/

theorem dropWhile_idem (p : Char → Bool) (l : List Char) :
    (l.dropWhile p).dropWhile p = l.dropWhile p := by
  induction l with
  | nil => rfl
  | cons a t ih =>
      by_cases h : p a
      · simp [List.dropWhile_cons, h, ih]
      · simp [List.dropWhile_cons, h]

theorem dropWhile_head_false (p : Char → Bool) (l : List Char) :
    l.dropWhile p = [] ∨ ∃ c t, l.dropWhile p = c :: t ∧ p c = false := by
  induction l with
  | nil => exact .inl rfl
  | cons a t ih =>
      by_cases h : p a
      · simpa [List.dropWhile_cons, h] using ih
      · exact .inr ⟨a, t, by simp [List.dropWhile_cons, h], by simpa using h⟩

theorem ltrimL_idem (l : List Char) : ltrimL (ltrimL l) = ltrimL l :=
  dropWhile_idem _ l

theorem ltrimL_of_rtrim_ltrim (l : List Char) :
    ltrimL ((ltrimL (ltrimL l).reverse).reverse) = (ltrimL (ltrimL l).reverse).reverse := by
  rcases dropWhile_head_false Char.isWhitespace l with h | ⟨c, t, h, hc⟩
  · have h2 : ltrimL l = [] := h
    rw [h2]
    rfl
  · have h2 : ltrimL l = c :: t := h
    have hpre : (ltrimL (ltrimL l).reverse).reverse <+: ltrimL l := by
      have hsuf : ltrimL (ltrimL l).reverse <:+ (ltrimL l).reverse :=
        List.dropWhile_suffix _
      have := List.reverse_prefix.mpr hsuf
      simpa using this
    rcases hpre with ⟨s, hs⟩
    generalize hX : (ltrimL (ltrimL l).reverse).reverse = X at hs ⊢
    rw [h2] at hs
    cases X with
    | nil => rfl
    | cons d u =>
        have hd : d = c := by
          have h3 : d :: (u ++ s) = c :: t := by simpa using hs
          exact (List.cons.injEq _ _ _ _ ▸ h3).1
        subst hd
        simp [ltrimL, List.dropWhile_cons, hc]

theorem pyStrip_idem (l : List Char) : pyStrip (pyStrip l) = pyStrip l := by
  show (ltrimL (ltrimL (pyStrip l)).reverse).reverse = pyStrip l
  rw [show ltrimL (pyStrip l) = pyStrip l from ltrimL_of_rtrim_ltrim l]
  show (ltrimL ((ltrimL (ltrimL l).reverse).reverse).reverse).reverse = pyStrip l
  rw [List.reverse_reverse, ltrimL_idem]
  rfl

/-! Helper lemmas about the normalizer. -/

theorem rawRows_length_add (data : List (String × Json)) :
    (rawRows data).length + invalidCount data + proCount data = data.length := by
  induction data with
  | nil => rfl
  | cons kv t ih =>
      unfold rawRows invalidCount proCount at ih ⊢
      rw [List.filterMap_cons, List.countP_cons, List.countP_cons]
      cases h : classifyEntry kv.1 kv.2 <;> simp [h] <;> omega

theorem firstRefGo_eq_findSome (l : List Json) :
    firstRefGo l = l.findSome? refCandidate := by
  induction l with
  | nil => rfl
  | cons r rs ih =>
      rw [firstRefGo, List.findSome?_cons]
      cases refCandidate r <;> simp [ih]

theorem refCandidate_eq_specRefUrl (r : Json) : refCandidate r = specRefUrl r := by
  cases r <;> simp only [refCandidate, specRefUrl]
  case obj o =>
    cases hu : jget o "url" <;> simp only []
    case str u =>
      cases hs : pyStrip u.data with
      | nil => decide
      | cons c cs => simp

/-! Helper lemmas about stability of the sort. -/

theorem filter_orderedInsert_key_eq (k : String) (a : Row) (m : List Row)
    (hk : sort_key_body a.body = k) :
    (m.orderedInsert rowLe a).filter (fun r => sort_key_body r.body == k)
      = a :: m.filter (fun r => sort_key_body r.body == k) := by
  rw [List.orderedInsert_eq_take_drop, List.filter_append]
  have h1 : (m.takeWhile fun b => decide ¬rowLe a b).filter
      (fun r => sort_key_body r.body == k) = [] := by
    rw [List.filter_eq_nil_iff]
    intro b hb
    have hlt := List.mem_takeWhile_imp hb
    have hnle : ¬ rowLe a b := by simpa using hlt
    have hlt2 : (sort_key_body b.body).data < (sort_key_body a.body).data :=
      not_le.mp hnle
    simp only [beq_iff_eq]
    intro hbk
    have heq : sort_key_body b.body = sort_key_body a.body := hbk.trans hk.symm
    rw [heq] at hlt2
    exact absurd hlt2 (lt_irrefl _)
  rw [h1, List.nil_append]
  have h3 : m.filter (fun r => sort_key_body r.body == k)
      = (List.dropWhile (fun b => decide ¬rowLe a b) m).filter
          (fun r => sort_key_body r.body == k) := by
    conv_lhs => rw [← List.takeWhile_append_dropWhile (fun b => decide ¬rowLe a b) m]
    rw [List.filter_append, h1, List.nil_append]
  rw [h3]
  simp [List.filter_cons, hk]

theorem filter_orderedInsert_key_ne (k : String) (a : Row) (m : List Row)
    (hk : sort_key_body a.body ≠ k) :
    (m.orderedInsert rowLe a).filter (fun r => sort_key_body r.body == k)
      = m.filter (fun r => sort_key_body r.body == k) := by
  rw [List.orderedInsert_eq_take_drop, List.filter_append]
  have h4 : (a :: List.dropWhile (fun b => decide ¬rowLe a b) m).filter
      (fun r => sort_key_body r.body == k)
      = (List.dropWhile (fun b => decide ¬rowLe a b) m).filter
          (fun r => sort_key_body r.body == k) := by
    simp [List.filter_cons, hk]
  rw [h4, ← List.filter_append, List.takeWhile_append_dropWhile]

theorem filter_insertionSort_key (k : String) (l : List Row) :
    (l.insertionSort rowLe).filter (fun r => sort_key_body r.body == k)
      = l.filter (fun r => sort_key_body r.body == k) := by
  induction l with
  | nil => rfl
  | cons a t ih =>
      rw [List.insertionSort]
      by_cases hk : sort_key_body a.body = k
      · rw [filter_orderedInsert_key_eq k a _ hk, ih,
          List.filter_cons_of_pos (by simp [hk])]
      · rw [filter_orderedInsert_key_ne k a _ hk, ih,
          List.filter_cons_of_neg (by simp [hk])]

/-! Helper lemmas: everything the Renderer emits is safe markup. -/

theorem safe_escStyleChar (c : Char) : SafeHtml (escStyleChar c) := by
  unfold escStyleChar
  by_cases h : c = '='
  · rw [if_pos h]
    exact .chunk _ (by simp [safeChunks])
  · rw [if_neg h]
    exact .esc ⟨[c]⟩

theorem safe_escape_and_style (l : List Char) : SafeHtml (escape_and_style l) := by
  induction l with
  | nil => exact .empty
  | cons c cs ih => exact .append (safe_escStyleChar c) ih

theorem safe_renderPHGo (n : Nat) (l : List Char) : SafeHtml (renderPHGo n l) := by
  induction n generalizing l with
  | zero => exact safe_escape_and_style l
  | succ n ih =>
      rw [renderPHGo]
      cases h : findPH l with
      | none => exact safe_escape_and_style l
      | some x =>
          obtain ⟨p, lab, rest⟩ := x
          exact .append
            (.append
              (.append
                (.append (safe_escape_and_style p) (.chunk _ (by simp [safeChunks])))
                (.esc ⟨lab⟩))
              (.chunk _ (by simp [safeChunks])))
            (ih rest)

theorem safe_render_placeholders (s : String) : SafeHtml (render_placeholders s) :=
  safe_renderPHGo _ _

theorem safe_format_body_html (body : String) : SafeHtml (format_body_html body) := by
  unfold format_body_html
  cases dataBodyMatch body with
  | none => exact safe_render_placeholders body
  | some nr =>
      obtain ⟨name, rest⟩ := nr
      exact .append
        (.append
          (.append (.chunk _ (by simp [safeChunks])) (.esc name))
          (.chunk _ (by simp [safeChunks])))
        (safe_render_placeholders rest)

theorem safe_anchor_wrap (inner : String) (href : Option String)
    (h : SafeHtml inner) : SafeHtml (anchor_wrap inner href) := by
  unfold anchor_wrap
  cases href with
  | none => exact h
  | some u =>
      show SafeHtml (if u = "" then inner
        else aOpen ++ html_escape u ++ "\">" ++ inner ++ "</a>")
      by_cases hu : u = ""
      · rw [if_pos hu]
        exact h
      · rw [if_neg hu]
        exact .append
          (.append
            (.append
              (.append (.chunk _ (by simp [safeChunks])) (.esc u))
              (.chunk _ (by simp [safeChunks])))
            h)
          (.chunk _ (by simp [safeChunks]))

theorem safe_renderRow (r : Row) : SafeHtml (renderRow r) := by
  show SafeHtml (rowTr1 ++ anchor_wrap (format_body_html r.body) r.href ++ rowTr2
    ++ anchor_wrap (html_escape r.description) r.href ++ rowTr3)
  exact .append
    (.append
      (.append
        (.append (.chunk _ (by simp [safeChunks]))
          (safe_anchor_wrap _ _ (safe_format_body_html r.body)))
        (.chunk _ (by simp [safeChunks])))
      (safe_anchor_wrap _ _ (.esc r.description)))
    (.chunk _ (by simp [safeChunks]))

theorem safe_joinSep (l : List String) (h : ∀ x ∈ l, SafeHtml x) :
    SafeHtml (joinSep "\n" l) := by
  induction l with
  | nil => exact .empty
  | cons a t ih =>
      cases t with
      | nil => exact h a (by simp)
      | cons b t2 =>
          show SafeHtml (a ++ "\n" ++ joinSep "\n" (b :: t2))
          exact .append
            (.append (h a (by simp)) (.chunk _ (by simp [safeChunks])))
            (ih (fun x hx => h x (List.mem_cons_of_mem a hx)))

/-! Claim theorems. -/

/-- Claim C1, counterexample: for the input body `data-on-$\x7b1:event\x7d`
the output of `format_body_html` does not contain the literal text
`data-on-` at all, so the claim as stated is false: the regex match drops
the `data-` prefix and wraps the name `on-` in a span of its own. -/
theorem c1_counterexample :
    isInfixL "data-on-".data (format_body_html "data-on-$\x7b1:event\x7d").data = false := by
  decide

/-- Claim C1, amended: for the input body `data-on-$\x7b1:event\x7d` the
rendered attribute cell is the name `on-` in a `font-medium` span followed
by an italic span whose content is exactly `event`; neither `$\x7b1:event\x7d`
nor the digit appears in the output, and the literal `data-` prefix is not
emitted. -/
theorem c1_amended :
    format_body_html "data-on-$\x7b1:event\x7d"
      = "<span class=\"font-medium\">on-</span><span class=\"italic\">event</span>"
    ∧ isInfixL "$\x7b1:event\x7d".data (format_body_html "data-on-$\x7b1:event\x7d").data
        = false
    ∧ isInfixL "1".data (format_body_html "data-on-$\x7b1:event\x7d").data = false
    ∧ isInfixL "<span class=\"italic\">event</span>".data
        (format_body_html "data-on-$\x7b1:event\x7d").data = true := by
  refine ⟨by decide, by decide, by decide, by decide⟩

/-- Claim C2: for every top-level mapping with at least one well-formed
entry, the number of rows produced by `to_rows` equals the number of
entries minus the entries skipped with a warning for invalid shape minus
the entries silently skipped for a denylisted body (the two skip classes
are disjoint by construction: the denylist test runs only on entries that
passed shape validation). -/
theorem c2_row_count (data : List (String × Json)) (h : 0 < wellFormedCount data) :
    (to_rows data).length = data.length - invalidCount data - proCount data := by
  have hlen := rawRows_length_add data
  have hsort : (to_rows data).length = (rawRows data).length :=
    List.length_insertionSort rowLe (rawRows data)
  omega

/-- Witness for C2 at a concrete one-entry mapping. -/
theorem c2_row_count_witness :
    0 < wellFormedCount
        [("k", Json.obj [("body", Json.str "data-foo"), ("description", Json.str "a desc")])]
    ∧ (to_rows
        [("k", Json.obj [("body", Json.str "data-foo"), ("description", Json.str "a desc")])]).length
      = [("k", Json.obj [("body", Json.str "data-foo"), ("description", Json.str "a desc")])].length
        - invalidCount
            [("k", Json.obj [("body", Json.str "data-foo"), ("description", Json.str "a desc")])]
        - proCount
            [("k", Json.obj [("body", Json.str "data-foo"), ("description", Json.str "a desc")])] :=
  ⟨by decide, c2_row_count _ (by decide)⟩

/-- Claim C3: `to_rows` output is sorted by the derived key (`_sort_key_body`,
compared as Python compares strings, code point by code point, and already
lower-cased, hence case-insensitive); the sort is stable, i.e. for every key
value the rows carrying that key appear in their original relative order;
and concretely a row with body `data-on-blur` sorts before one with body
`data-on-click` even when the input lists them in the opposite order. -/
theorem c3_sorted_stable :
    (∀ data : List (String × Json), List.Sorted rowLe (to_rows data))
    ∧ (∀ (data : List (String × Json)) (k : String),
        (to_rows data).filter (fun r => sort_key_body r.body == k)
          = (rawRows data).filter (fun r => sort_key_body r.body == k))
    ∧ to_rows
        [("click", Json.obj [("body", Json.str "data-on-click"), ("description", Json.str "c")]),
         ("blur", Json.obj [("body", Json.str "data-on-blur"), ("description", Json.str "b")])]
      = [⟨"data-on-blur", "b", none⟩, ⟨"data-on-click", "c", none⟩] :=
  ⟨fun _ => List.sorted_insertionSort rowLe _,
   fun _ k => filter_insertionSort_key k _,
   by decide⟩

/-- Claim C4: the denylist test is a plain prefix test on the trimmed body
and a denylisted entry is dropped silently: `data-persist-extra` and
`data-persistent` are both dropped (prefix `data-persist`), `data-nonpersist`
is kept, and no warning at all is emitted for these three entries. -/
theorem c4_denylist_exact :
    to_rows
      [("a", Json.obj [("body", Json.str "data-persist-extra"), ("description", Json.str "d1")]),
       ("b", Json.obj [("body", Json.str "data-persistent"), ("description", Json.str "d2")]),
       ("c", Json.obj [("body", Json.str "data-nonpersist"), ("description", Json.str "d3")])]
      = [⟨"data-nonpersist", "d3", none⟩]
    ∧ rowWarnings
      [("a", Json.obj [("body", Json.str "data-persist-extra"), ("description", Json.str "d1")]),
       ("b", Json.obj [("body", Json.str "data-persistent"), ("description", Json.str "d2")]),
       ("c", Json.obj [("body", Json.str "data-nonpersist"), ("description", Json.str "d3")])]
      = [] := by
  refine ⟨by decide, by decide⟩

/-- Claim C5: every row in the final collection has a non-empty trimmed
body and a non-empty trimmed description, and its body does not start with
any denylisted premium-feature name. -/
theorem c5_row_invariants (data : List (String × Json)) (r : Row)
    (hr : r ∈ to_rows data) :
    strip r.body ≠ "" ∧ strip r.description ≠ "" ∧ startsWithAnyPro r.body.data = false := by
  rw [to_rows, List.mem_insertionSort] at hr
  rw [rawRows, List.mem_filterMap] at hr
  obtain ⟨kv, _, hkv⟩ := hr
  obtain ⟨key, value⟩ := kv
  cases hc : classifyEntry key value with
  | warnSkip m => rw [hc] at hkv; simp at hkv
  | proSkip => rw [hc] at hkv; simp at hkv
  | keep r2 =>
      rw [hc] at hkv
      simp only [Option.some.injEq] at hkv
      subst hkv
      cases value with
      | obj o =>
          unfold classifyEntry at hc
          dsimp only at hc
          cases hb : jget o "body" with
          | str bs =>
              rw [hb] at hc
              dsimp only at hc
              by_cases h1 : (pyStrip bs.data).isEmpty = true
              · rw [if_pos h1] at hc; exact EntryOutcome.noConfusion hc
              · rw [if_neg h1] at hc
                cases hd : jget o "description" with
                | str ds =>
                    rw [hd] at hc
                    dsimp only at hc
                    by_cases h2 : (pyStrip ds.data).isEmpty = true
                    · rw [if_pos h2] at hc; exact EntryOutcome.noConfusion hc
                    · rw [if_neg h2] at hc
                      by_cases h3 : startsWithAnyPro (pyStrip bs.data) = true
                      · rw [if_pos h3] at hc; exact EntryOutcome.noConfusion hc
                      · rw [if_neg h3] at hc
                        injection hc with hr2
                        subst hr2
                        refine ⟨?_, ?_, ?_⟩
                        · intro heq
                          have h4 : pyStrip (pyStrip bs.data) = [] :=
                            congrArg String.data heq
                          rw [pyStrip_idem] at h4
                          exact h1 (List.isEmpty_iff.mpr h4)
                        · intro heq
                          have h4 : pyStrip (pyStrip ds.data) = [] :=
                            congrArg String.data heq
                          rw [pyStrip_idem] at h4
                          exact h2 (List.isEmpty_iff.mpr h4)
                        · simpa using h3
                | null => rw [hd] at hc; exact EntryOutcome.noConfusion hc
                | bool b => rw [hd] at hc; exact EntryOutcome.noConfusion hc
                | num n => rw [hd] at hc; exact EntryOutcome.noConfusion hc
                | arr l => rw [hd] at hc; exact EntryOutcome.noConfusion hc
                | obj l => rw [hd] at hc; exact EntryOutcome.noConfusion hc
          | null => rw [hb] at hc; exact EntryOutcome.noConfusion hc
          | bool b => rw [hb] at hc; exact EntryOutcome.noConfusion hc
          | num n => rw [hb] at hc; exact EntryOutcome.noConfusion hc
          | arr l => rw [hb] at hc; exact EntryOutcome.noConfusion hc
          | obj l => rw [hb] at hc; exact EntryOutcome.noConfusion hc
      | null => exact EntryOutcome.noConfusion hc
      | bool b => exact EntryOutcome.noConfusion hc
      | num n => exact EntryOutcome.noConfusion hc
      | str s => exact EntryOutcome.noConfusion hc
      | arr l => exact EntryOutcome.noConfusion hc

/-- Witness for C5 at a concrete one-entry mapping and its produced row. -/
theorem c5_row_invariants_witness :
    (⟨"data-bind", "binds a value", none⟩ : Row)
        ∈ to_rows [("e", Json.obj [("body", Json.str "data-bind"),
            ("description", Json.str "binds a value")])]
    ∧ (strip (⟨"data-bind", "binds a value", none⟩ : Row).body ≠ ""
        ∧ strip (⟨"data-bind", "binds a value", none⟩ : Row).description ≠ ""
        ∧ startsWithAnyPro (⟨"data-bind", "binds a value", none⟩ : Row).body.data = false) :=
  ⟨by decide,
   c5_row_invariants
     [("e", Json.obj [("body", Json.str "data-bind"),
         ("description", Json.str "binds a value")])]
     ⟨"data-bind", "binds a value", none⟩ (by decide)⟩

/-- Claim C6: the whole rendered document is a concatenation of fixed
program markup chunks and `html.escape` outputs: attribute body characters,
placeholder labels, descriptions, href values and the timestamp only ever
enter the document through `html_escape`, so no raw user content from the
fetched JSON is emitted unescaped. -/
theorem c6_all_escaped (rows : List Row) (generated_at : Datetime) :
    SafeHtml (render_html rows generated_at) := by
  show SafeHtml (htmlDoc1 ++ cssHref ++ htmlDoc2 ++ joinSep "\n" (rows.map renderRow)
    ++ htmlDoc3 ++ html_escape (genStr generated_at) ++ htmlDoc4)
  exact .append
    (.append
      (.append
        (.append
          (.append
            (.append (.chunk _ (by simp [safeChunks])) (.chunk _ (by simp [safeChunks])))
            (.chunk _ (by simp [safeChunks])))
          (safe_joinSep _ (fun x hx => by
            obtain ⟨r, _, rfl⟩ := List.mem_map.mp hx
            exact safe_renderRow r)))
        (.chunk _ (by simp [safeChunks])))
      (.esc _))
    (.chunk _ (by simp [safeChunks]))

/-- Claim C7: when `fetch_json` fails — in particular with a
`Malformed JSON: ...` message for malformed top-level JSON — `main` exits
with code 1, writes no file, and emits exactly one standard-error line
beginning `Error:` and carrying the failure message; and a file is only
ever written when the fetch succeeded and the write succeeded, in which
case its content is exactly the document rendered in memory. -/
theorem c7_fatal_no_write (msg : String) (now : Datetime) (w : Option String) :
    (mainModel (Except.error msg) now w).exitCode = 1
    ∧ (mainModel (Except.error msg) now w).written = none
    ∧ (mainModel (Except.error msg) now w).stderrLines = ["Error: " ++ msg]
    ∧ (∀ (fetch : Except String (List (String × Json))) (out : String × String),
        (mainModel fetch now w).written = some out
        → ∃ data, fetch = Except.ok data
            ∧ out = (OUTPUT_FILENAME, render_html (to_rows data) now)
            ∧ w = none) := by
  refine ⟨rfl, rfl, rfl, ?_⟩
  intro fetch out hout
  cases fetch with
  | error m => simp [mainModel] at hout
  | ok data =>
      cases w with
      | some e => simp [mainModel] at hout
      | none =>
          refine ⟨data, rfl, ?_, rfl⟩
          have hw : (mainModel (Except.ok data) now none).written
              = some (OUTPUT_FILENAME, render_html (to_rows data) now) := rfl
          rw [hw] at hout
          exact (Option.some.injEq _ _ ▸ hout).symm

/-- Witness for C7 at a concrete parse-failure message and a concrete
successful run. -/
theorem c7_fatal_no_write_witness :
    (mainModel (Except.error "Malformed JSON: Expecting value") ⟨2026, 10, 12, 0, 0⟩
        none).exitCode = 1
    ∧ (∃ data, (Except.ok [] : Except String (List (String × Json))) = Except.ok data
        ∧ (OUTPUT_FILENAME, render_html (to_rows []) ⟨2026, 10, 12, 0, 0⟩)
            = (OUTPUT_FILENAME, render_html (to_rows data) ⟨2026, 10, 12, 0, 0⟩)
        ∧ (none : Option String) = none) :=
  ⟨(c7_fatal_no_write "Malformed JSON: Expecting value" ⟨2026, 10, 12, 0, 0⟩ none).1,
   (c7_fatal_no_write "Malformed JSON: Expecting value" ⟨2026, 10, 12, 0, 0⟩ none).2.2.2
     (Except.ok []) (OUTPUT_FILENAME, render_html (to_rows []) ⟨2026, 10, 12, 0, 0⟩) rfl⟩

/-- Claim C8: reference extraction returns the first qualifying element of
the list — a mapping with a string `url` whose trimmed value
case-insensitively starts with `http://` or `https://` — and every other
shape (non-list, or no qualifying element, which `findSome?` maps to
`none`) yields no href; concretely the given two-element list yields
`https://example.com/x`, skipping the non-qualifying first element. -/
theorem c8_first_ref :
    (∀ j : Json, first_ref_url j
        = match j with
          | Json.arr l => l.findSome? specRefUrl
          | _ => none)
    ∧ first_ref_url (Json.arr [Json.obj [("url", Json.str "not-a-url")],
        Json.obj [("url", Json.str "https://example.com/x")]])
      = some "https://example.com/x" := by
  constructor
  · intro j
    cases j with
    | arr l =>
        show firstRefGo l = l.findSome? specRefUrl
        rw [firstRefGo_eq_findSome,
          funext refCandidate_eq_specRefUrl]
    | null => rfl
    | bool b => rfl
    | num n => rfl
    | str s => rfl
    | obj o => rfl
  · decide

/-- Claim C9: the renderer is a pure function of the row sequence and the
timestamp: identical inputs give byte-identical documents. -/
theorem c9_deterministic (rows1 rows2 : List Row) (dt1 dt2 : Datetime)
    (h1 : rows1 = rows2) (h2 : dt1 = dt2) :
    render_html rows1 dt1 = render_html rows2 dt2 := by
  rw [h1, h2]

/-- Witness for C9 at a concrete row list and timestamp. -/
theorem c9_deterministic_witness :
    ([⟨"data-text", "sets text", none⟩] : List Row) = [⟨"data-text", "sets text", none⟩]
    ∧ (⟨2026, 1, 5, 7, 9⟩ : Datetime) = ⟨2026, 1, 5, 7, 9⟩
    ∧ render_html [⟨"data-text", "sets text", none⟩] ⟨2026, 1, 5, 7, 9⟩
        = render_html [⟨"data-text", "sets text", none⟩] ⟨2026, 1, 5, 7, 9⟩ :=
  ⟨rfl, rfl, c9_deterministic _ _ _ _ rfl rfl⟩

/-- Claim C10: the `data-` literal of `DATA_BODY_RE` is case-sensitive: a
body beginning `Data-` never matches, its sort key is the whole body with
placeholders substituted, trimmed and lower-cased (so it keeps the
`data-` prefix), and it renders without the `font-medium` name span;
whereas the matching body `data-on-click` derives the key `on-click`, with
the leading `data-` dropped. -/
theorem c10_case_sensitive :
    (∀ t : String, dataBodyMatch ("Data-" ++ t) = none)
    ∧ (∀ t : String,
        sort_key_body ("Data-" ++ t) = lower (strip (phSub ("Data-" ++ t))))
    ∧ sort_key_body "Data-on-click" = "data-on-click"
    ∧ format_body_html "Data-on-click" = render_placeholders "Data-on-click"
    ∧ isInfixL "font-medium".data (format_body_html "Data-on-click").data = false
    ∧ sort_key_body "data-on-click" = "on-click" := by
  have hno : ∀ t : String, dataBodyMatch ("Data-" ++ t) = none := by
    intro t
    unfold dataBodyMatch
    have hd : ("Data-" ++ t).data = 'D' :: 'a' :: 't' :: 'a' :: '-' :: t.data := by
      rw [String.data_append]
      rfl
    rw [hd]
    rfl
  refine ⟨hno, ?_, by decide, by decide, by decide, by decide⟩
  intro t
  unfold sort_key_body
  rw [hno t]

end DsAttrs
